import Mathlib

/-!
Verification of the Prodigy IQ dashboard's filter-and-aggregate core.

The embedding translates the filtering and metric code of `app.py`,
`advanced_analysis.py` and `multi_well_comparison.py` into executable Lean
definitions.  Tabular data is modelled as an explicit schema (column names)
plus rows of cells; pandas NaN/NaT cells are `Cell.missing`, and float NaN
values produced by aggregations (mean/max of an empty column) are modelled
by `Option` (for stored aggregates) and by the `PF` type (rational-or-NaN)
inside the advanced-metric formulas, which reproduces Python float
truthiness (`if y:` is entered when `y` is NaN).  Operations that raise in
Python (`KeyError` on a missing column, `ZeroDivisionError`) return
`Except String`.
-/

deriving instance DecidableEq for Except

/-- `str.lower()` (ASCII), written over the character list so that the
kernel can evaluate it on concrete strings. -/
def lowerStr (s : String) : String :=
  String.mk (s.toList.map Char.toLower)

/-- One table cell: a numeric value, a text value, a parsed date (only its
year matters to the code under scrutiny), or a missing value (NaN/NaT). -/
inductive Cell where
  | num (q : ℚ)
  | str (s : String)
  | date (y : ℤ)
  | missing
deriving DecidableEq

abbrev Row := List Cell

/-- A pandas DataFrame: ordered column names and ordered rows of cells. -/
structure Dataset where
  cols : List String
  rows : List Row
deriving DecidableEq

/-- `col in df.columns` -/
def Dataset.hasCol (df : Dataset) (c : String) : Bool :=
  df.cols.contains c

/-- Index of a column in the schema. -/
def colIdx (cols : List String) (c : String) : Option Nat :=
  cols.findIdx? (· == c)

/-- The cell of row `r` in column `c` (missing when the column is absent or
the row is short). -/
def Row.cell (cols : List String) (r : Row) (c : String) : Cell :=
  match colIdx cols c with
  | some i => r.getD i Cell.missing
  | none => Cell.missing

/-- Numeric view of a cell; non-numeric and missing cells have none. -/
def cellNum : Cell → Option ℚ
  | Cell.num q => some q
  | _ => none

/-- The non-missing numeric values of column `c`, in row order (pandas
sums/means skip NaN). -/
def Dataset.colVals (df : Dataset) (c : String) : List ℚ :=
  df.rows.filterMap (fun r => cellNum (Row.cell df.cols r c))

/-- `df[c].sum()` — 0 on an empty or all-missing column. -/
def Dataset.colSum (df : Dataset) (c : String) : ℚ :=
  (df.colVals c).sum

/-- `df[c].mean()` — `none` models the NaN mean of an empty column. -/
def Dataset.colMean (df : Dataset) (c : String) : Option ℚ :=
  let xs := df.colVals c
  if xs = [] then none else some (xs.sum / xs.length)

/-- `df[c].max()` — `none` models the NaN max of an empty column. -/
def Dataset.colMax (df : Dataset) (c : String) : Option ℚ :=
  (df.colVals c).max?

/-- A Python float that is either an actual (rational) value or NaN. -/
inductive PF where
  | nan
  | val (q : ℚ)
deriving DecidableEq

/-- Float multiplication; NaN propagates. -/
def PF.mul : PF → PF → PF
  | PF.val a, PF.val b => PF.val (a * b)
  | _, _ => PF.nan

/-- Float subtraction; NaN propagates. -/
def PF.sub : PF → PF → PF
  | PF.val a, PF.val b => PF.val (a - b)
  | _, _ => PF.nan

/-- Python truthiness of a float: `bool(nan) = True`, `bool(0.0) = False`. -/
def PF.truthy : PF → Bool
  | PF.nan => true
  | PF.val q => q != 0

/-- `safe_div(x, y) = x / y if y else 0` (app.py line 294) on floats:
a zero denominator yields 0, a NaN denominator is truthy so the division
runs and yields NaN. -/
def PF.safeDiv (x y : PF) : PF :=
  match y with
  | PF.nan => PF.nan
  | PF.val b => if b = 0 then PF.val 0 else
      match x with
      | PF.nan => PF.nan
      | PF.val a => PF.val (a / b)

/-- `safe_div` restricted to actual numbers (both arguments real). -/
def safe_div (x y : ℚ) : ℚ :=
  if y = 0 then 0 else x / y

/-- `df[c].mean()` as a Python float (NaN when the column is empty). -/
def colMeanPF (df : Dataset) (c : String) : PF :=
  match df.colMean c with
  | none => PF.nan
  | some m => PF.val m

/-- String form of a cell, as `Series.astype(str)` renders it: text is kept,
numbers and dates print their value, missing values print as "nan".
(The dashboard's exact float rendering may differ from `toString (q : ℚ)`;
no claim depends on the text form of a numeric cell.) -/
def cellStr : Cell → String
  | Cell.num q => toString q
  | Cell.str s => s
  | Cell.date y => toString y
  | Cell.missing => "nan"

/-- Characters that are metacharacters for the Python `re` engine backing
pandas `Series.str.contains` (which runs with `regex=True` by default). -/
def regexMeta : List Char :=
  ['.', '^', '$', '*', '+', '?', '\x7b', '\x7d', '[', ']', '\\', '|', '(', ')']

/-- A token of the modelled regular-expression fragment: a literal
character or the any-character wildcard. -/
inductive RTok where
  | dot
  | lit (c : Char)
deriving DecidableEq

/-- Pattern reading: '.' is the wildcard, every other character a literal.
This models the fragment of Python regexes actually exercised here; the
theorems only quantify over patterns inside this fragment. -/
def tokOf (c : Char) : RTok :=
  if c = '.' then RTok.dot else RTok.lit c

def tokMatch : RTok → Char → Bool
  | RTok.dot, _ => true
  | RTok.lit c, d => c = d

/-- Does the token list match a prefix of the text? -/
def matchHere : List RTok → List Char → Bool
  | [], _ => true
  | _ :: _, [] => false
  | t :: ts, c :: cs => tokMatch t c && matchHere ts cs

/-- Does the token list match starting at any position (Python `re.search`)? -/
def searchFrom : List RTok → List Char → Bool
  | ts, [] => matchHere ts []
  | ts, c :: cs => matchHere ts (c :: cs) || searchFrom ts cs

/-- `re.search(pat, text)` for patterns in the literal-plus-'.' fragment. -/
def reSearch (pat text : String) : Bool :=
  searchFrom (pat.toList.map tokOf) text.toList

/-- Does `need` occur as a contiguous run at the start of `hay`? -/
def startMatch : List Char → List Char → Bool
  | [], _ => true
  | _ :: _, [] => false
  | a :: as, b :: bs => a = b && startMatch as bs

/-- Does `need` occur as a contiguous run anywhere in `hay`? -/
def subAt : List Char → List Char → Bool
  | need, [] => startMatch need []
  | need, c :: cs => startMatch need (c :: cs) || subAt need cs

/-- Plain (non-regex) substring containment. -/
def substrB (need hay : String) : Bool :=
  subAt need.toList hay.toList

/-- One row survives the free-text search when any cell's lowercased string
form matches the (already lowercased) pattern (app.py line 29). -/
def searchKeep (s : String) (r : Row) : Bool :=
  r.any (fun c => reSearch s (lowerStr (cellStr c)))

def searchFilter (df : Dataset) (s : String) : Dataset :=
  { df with rows := df.rows.filter (searchKeep s) }

/-- Lines 25–29 of app.py: lowercase the input; an empty search is skipped. -/
def searchApplied (df : Dataset) (raw : String) : Dataset :=
  let s := lowerStr raw
  if s = "" then df else searchFilter df s

/-- `filtered[filtered[col].astype(str) == selected]` (app.py line 35). -/
def eqFilter (df : Dataset) (c sel : String) : Dataset :=
  { df with rows := df.rows.filter (fun r => cellStr (Row.cell df.cols r c) == sel) }

/-- One pass of the equality-select loop (app.py lines 31–35).  The dropdown
options are computed from `filtered[col]` unconditionally, so a missing
column raises `KeyError` even when the selection is "All". -/
def eqStep (df : Dataset) (c sel : String) : Except String Dataset :=
  if df.hasCol c then
    Except.ok (if sel = "All" then df else eqFilter df c sel)
  else Except.error "KeyError"

/-- Year of an ISO-style date string ("YYYY-…"): its first four characters
when they are all digits.  Models the fragment of `pd.to_datetime` parsing
the dashboard's data exercises. -/
def parseYear (s : String) : Option ℤ :=
  let cs := s.toList
  if 4 ≤ cs.length ∧ (cs.take 4).all Char.isDigit then
    some ((((cs.take 4).foldl (fun a c => a * 10 + (c.toNat - 48)) 0 : ℕ) : ℤ))
  else none

/-- `pd.to_datetime(·, errors="coerce")` on one cell: dates stay, parseable
strings become dates, everything else coerces to missing (NaT). -/
def coerceCell : Cell → Cell
  | Cell.date y => Cell.date y
  | Cell.str s =>
      match parseYear s with
      | some y => Cell.date y
      | none => Cell.missing
  | Cell.num _ => Cell.missing
  | Cell.missing => Cell.missing

/-- Rewrite column `c` of one row through `f` (no-op when absent). -/
def updateRow (cols : List String) (r : Row) (c : String) (f : Cell → Cell) : Row :=
  match colIdx cols c with
  | some i => r.set i (f (r.getD i Cell.missing))
  | none => r

/-- Rewrite column `c` of every row through `f`. -/
def updateCol (df : Dataset) (c : String) (f : Cell → Cell) : Dataset :=
  { df with rows := df.rows.map (fun r => updateRow df.cols r c f) }

/-- `df["TD_Date"] = pd.to_datetime(df["TD_Date"], errors="coerce")` —
the in-place column write of app.py line 37 / 392 and
advanced_analysis.py line 142 / 233; reading a missing column raises. -/
def tdCoerceStep (df : Dataset) : Except String Dataset :=
  if df.hasCol "TD_Date" then Except.ok (updateCol df "TD_Date" coerceCell)
  else Except.error "KeyError"

def coerceTDDate (df : Dataset) : Dataset :=
  updateCol df "TD_Date" coerceCell

/-- `(df["TD_Date"].dt.year >= lo) & (df["TD_Date"].dt.year <= hi)`:
missing dates compare False and are dropped. -/
def yearKeep (cols : List String) (lo hi : ℤ) (r : Row) : Bool :=
  match Row.cell cols r "TD_Date" with
  | Cell.date y => decide (lo ≤ y) && decide (y ≤ hi)
  | _ => false

def yearFilter (df : Dataset) (lo hi : ℤ) : Dataset :=
  { df with rows := df.rows.filter (yearKeep df.cols lo hi) }

/-- The depth bins of app.py lines 41–45 (name, low, optional high). -/
def depth_bins : List (String × ℚ × Option ℚ) :=
  [("<5000 ft", 0, some 5000), ("5000–10000 ft", 5000, some 10000),
   ("10000–15000 ft", 10000, some 15000), ("15000–20000 ft", 15000, some 20000),
   ("20000–25000 ft", 20000, some 25000), (">25000 ft", 25000, none)]

/-- The mud-weight bins of app.py lines 51–54; note the last bin is
bounded above by 30, unlike the last depth bin. -/
def mw_bins : List (String × ℚ × Option ℚ) :=
  [("<3", 0, some 3), ("3–6", 3, some 6), ("6–9", 6, some 9),
   ("9–11", 9, some 11), ("11–14", 11, some 14), ("14–30", 14, some 30)]

/-- Membership of a value in one bin: `low <= v < high`, the final bin
unbounded when `high` is `none`. -/
def inBin (v : ℚ) (b : String × ℚ × Option ℚ) : Bool :=
  decide (b.2.1 ≤ v) &&
    (match b.2.2 with
     | some h => decide (v < h)
     | none => true)

/-- `(df[c] >= low) & (df[c] < high)` on one row: missing or non-numeric
cells compare False and are dropped. -/
def rangeKeep (cols : List String) (c : String) (lo : ℚ) (hi : Option ℚ) (r : Row) : Bool :=
  match cellNum (Row.cell cols r c) with
  | some v => decide (lo ≤ v) &&
      (match hi with
       | some h => decide (v < h)
       | none => true)
  | none => false

def rangeFilter (df : Dataset) (c : String) (lo : ℚ) (hi : Option ℚ) : Dataset :=
  { df with rows := df.rows.filter (rangeKeep df.cols c lo hi) }

def lookupBin (bins : List (String × ℚ × Option ℚ)) (k : String) : Option (ℚ × Option ℚ) :=
  (bins.find? (fun b => b.1 == k)).map (fun b => b.2)

/-- One range-bucket pass (app.py lines 46–49 / 55–58): "All" is skipped;
a selected bin reads the column (raising on a missing column) and keeps
the `[low, high)` records; an unknown bin name is a dict `KeyError`. -/
def rangeStep (df : Dataset) (c : String) (bins : List (String × ℚ × Option ℚ))
    (sel : String) : Except String Dataset :=
  if sel = "All" then Except.ok df
  else
    match lookupBin bins sel with
    | none => Except.error "KeyError"
    | some (lo, hi) =>
        if df.hasCol c then Except.ok (rangeFilter df c lo hi)
        else Except.error "KeyError"

/-- The sidebar widget state feeding `apply_shared_filters`. -/
structure FilterParams where
  search : String
  op : String
  ctr : String
  shk : String
  hs : String
  yearLo : ℤ
  yearHi : ℤ
  depth : String
  mw : String
deriving DecidableEq

/-- `apply_shared_filters` (app.py lines 23–60): free-text search, the four
equality selects, TD_Date coercion plus the always-applied year-range
filter, then the depth and mud-weight range buckets. -/
def apply_shared_filters (df : Dataset) (p : FilterParams) : Except String Dataset :=
  let f0 := searchApplied df p.search
  match eqStep f0 "Operator" p.op with
  | Except.error e => Except.error e
  | Except.ok f1 =>
  match eqStep f1 "Contractor" p.ctr with
  | Except.error e => Except.error e
  | Except.ok f2 =>
  match eqStep f2 "flowline_Shakers" p.shk with
  | Except.error e => Except.error e
  | Except.ok f3 =>
  match eqStep f3 "Hole_Size" p.hs with
  | Except.error e => Except.error e
  | Except.ok f4 =>
  if f4.hasCol "TD_Date" then
    let f5 := yearFilter (coerceTDDate f4) p.yearLo p.yearHi
    match rangeStep f5 "MD Depth" depth_bins p.depth with
    | Except.error e => Except.error e
    | Except.ok f6 => rangeStep f6 "AMW" mw_bins p.mw
  else Except.error "KeyError"

/-- The widget state with everything at its default: empty search, every
select on "All", the full 2020–2026 year window. -/
def allAllParams : FilterParams :=
  { search := "", op := "All", ctr := "All", shk := "All", hs := "All",
    yearLo := 2020, yearHi := 2026, depth := "All", mw := "All" }

/-- The cost-estimator configuration dict (app.py lines 173–193). -/
structure Config where
  dil_rate : ℚ
  haul_rate : ℚ
  screen_price : ℚ
  num_screens : ℚ
  equip_cost : ℚ
  num_shakers : ℚ
  shaker_life : ℚ
  eng_cost : ℚ
  other_cost : ℚ
deriving DecidableEq

/-- The dict `calc_cost` returns (app.py lines 206–219); `Option ℚ` fields
carry `none` for a NaN produced by the mean/max of an empty column. -/
structure Breakdown where
  perFt : ℚ
  total : ℚ
  dilution : ℚ
  haul : ℚ
  screen : ℚ
  equipment : ℚ
  engineering : ℚ
  other : ℚ
  avgLGS : Option ℚ
  dsrePct : Option ℚ
  depth : Option ℚ
deriving DecidableEq

/-- The columns `calc_cost` reads without an `in df.columns` guard. -/
def costSchemaOk (df : Dataset) : Bool :=
  df.hasCol "Total_Dil" && df.hasCol "Haul_OFF" && df.hasCol "IntLength"

/-- `calc_cost` (app.py lines 195–219).  The unguarded sums raise `KeyError`
on a missing column (before any arithmetic), and the equipment amortization
`(equip_cost * num_shakers) / shaker_life` raises `ZeroDivisionError` when
`shaker_life` is zero; cost-per-foot is guarded by `if intlen else 0`. -/
def calc_cost (sub : Dataset) (config : Config) : Except String Breakdown :=
  if costSchemaOk sub then
    if config.shaker_life = 0 then Except.error "ZeroDivisionError"
    else
      let td := sub.colSum "Total_Dil"
      let ho := sub.colSum "Haul_OFF"
      let intlen := sub.colSum "IntLength"
      let dilution := config.dil_rate * td
      let haul := config.haul_rate * ho
      let screen := config.screen_price * config.num_screens
      let equipment := config.equip_cost * config.num_shakers / config.shaker_life
      let total := dilution + haul + screen + equipment + config.eng_cost + config.other_cost
      Except.ok
        { perFt := if intlen = 0 then 0 else total / intlen
          total := total
          dilution := dilution
          haul := haul
          screen := screen
          equipment := equipment
          engineering := config.eng_cost
          other := config.other_cost
          avgLGS := if sub.hasCol "LGS" then (sub.colMean "LGS").map (fun m => m * 100) else some 0
          dsrePct := if sub.hasCol "DSRE" then (sub.colMean "DSRE").map (fun m => m * 100) else some 0
          depth := if sub.hasCol "MD Depth" then sub.colMax "MD Depth" else some 0 }
  else Except.error "KeyError"

/-- The nine advanced metrics of app.py lines 297–318, as Python floats. -/
structure AdvMetrics where
  ste : PF
  cvr : PF
  sli : PF
  frc : PF
  dii : PF
  fli : PF
  cdr : PF
  mre : PF
  dsl : PF
deriving DecidableEq

/-- The columns app.py's `calculate_advanced_metrics` reads without a guard. -/
def advSchemaOk (df : Dataset) : Bool :=
  df.hasCol "Total_SCE" && df.hasCol "Haul_OFF" && df.hasCol "IntLength" &&
  df.hasCol "ROP" && df.hasCol "Hole_Size" && df.hasCol "Base_Oil" &&
  df.hasCol "Water" && df.hasCol "Chemicals"

/-- `calculate_advanced_metrics` (app.py lines 297–318).  `Solids_Generated`
and `Discard Ratio` are column-guarded; the other columns raise `KeyError`
when absent.  All ratios run through `safe_div`; empty-column means are NaN
and propagate per Python float semantics. -/
def calculate_advanced_metrics (df : Dataset) (total_flow_rate number_of_screens screen_area : ℚ) :
    Except String AdvMetrics :=
  if advSchemaOk df then
    let solids_generated : PF :=
      PF.val (if df.hasCol "Solids_Generated" then df.colSum "Solids_Generated" else 0)
    let discard_ratio : PF :=
      if df.hasCol "Discard Ratio" then colMeanPF df "Discard Ratio" else PF.val 0
    let total_solids_removed := PF.mul solids_generated discard_ratio
    let total_solids_in := solids_generated
    let ste := if total_solids_in.truthy then
        PF.mul (PF.safeDiv total_solids_removed total_solids_in) (PF.val 100)
      else PF.val 0
    let frc := if total_solids_removed.truthy then
        PF.mul (PF.safeDiv (PF.val (df.colSum "Total_SCE")) total_solids_removed) (PF.val 100)
      else PF.val 0
    Except.ok
      { ste := ste
        cvr := PF.safeDiv (PF.val (df.colSum "Haul_OFF")) (PF.val (df.colSum "IntLength"))
        sli := PF.safeDiv (PF.val total_flow_rate) (PF.val (number_of_screens * screen_area))
        frc := frc
        dii := PF.safeDiv (colMeanPF df "ROP") (colMeanPF df "Hole_Size")
        fli := PF.safeDiv
          (PF.val (df.colSum "Base_Oil" + df.colSum "Water" + df.colSum "Chemicals"))
          (PF.val (df.colSum "IntLength"))
        cdr := PF.safeDiv (PF.val (df.colSum "Chemicals")) (PF.val (df.colSum "IntLength"))
        mre := PF.sub (PF.val 100) frc
        dsl := PF.sub (PF.val 100) ste }
  else Except.error "KeyError"

/-- `{k: safe_div(v, d) for k, v in metrics.items()}` — the per-foot /
per-hour normalization of app.py lines 343–344 (`d` is the IntLength or
Drilling_Hours sum). -/
def normMetrics (m : AdvMetrics) (d : PF) : AdvMetrics :=
  { ste := PF.safeDiv m.ste d
    cvr := PF.safeDiv m.cvr d
    sli := PF.safeDiv m.sli d
    frc := PF.safeDiv m.frc d
    dii := PF.safeDiv m.dii d
    fli := PF.safeDiv m.fli d
    cdr := PF.safeDiv m.cdr d
    mre := PF.safeDiv m.mre d
    dsl := PF.safeDiv m.dsl d }

/-- The all-zero metric record. -/
def zeroAdv : AdvMetrics :=
  { ste := PF.val 0, cvr := PF.val 0, sli := PF.val 0, frc := PF.val 0,
    dii := PF.val 0, fli := PF.val 0, cdr := PF.val 0, mre := PF.val 0,
    dsl := PF.val 0 }

/-- The fully column-guarded metric dict of advanced_analysis.py lines 8–19:
each metric is that column's mean (`none` models an empty column's NaN),
or 0 when the column is absent. -/
structure AaMetrics where
  ste : Option ℚ
  cvr : Option ℚ
  sli : Option ℚ
  frc : Option ℚ
  dii : Option ℚ
  fli : Option ℚ
  cdr : Option ℚ
  mre : Option ℚ
  dsl : Option ℚ
deriving DecidableEq

/-- `calculate_advanced_metrics` of advanced_analysis.py lines 8–19. -/
def calculate_advanced_metrics_aa (df : Dataset) : AaMetrics :=
  { ste := if df.hasCol "STE" then df.colMean "STE" else some 0
    cvr := if df.hasCol "CVR" then df.colMean "CVR" else some 0
    sli := if df.hasCol "SLI" then df.colMean "SLI" else some 0
    frc := if df.hasCol "FRC%" then (df.colMean "FRC%").map (fun m => m * 100) else some 0
    dii := if df.hasCol "DII" then df.colMean "DII" else some 0
    fli := if df.hasCol "FLI" then df.colMean "FLI" else some 0
    cdr := if df.hasCol "CDR" then df.colMean "CDR" else some 0
    mre := if df.hasCol "MRE%" then (df.colMean "MRE%").map (fun m => m * 100) else some 0
    dsl := if df.hasCol "DSL" then df.colMean "DSL" else some 0 }

/-- What each advanced_analysis.py metric is on a zero-row dataset: NaN
(`none`) when the column exists, the guarded 0 otherwise. -/
def emptyMetricVal (df : Dataset) (c : String) : Option ℚ :=
  if df.hasCol c then none else some 0

/-- "x is n hundredths to two decimals": 100·x rounds to the integer n.
Stated as a strict half-unit bound, which is unambiguous away from ties. -/
def roundsTo2 (x : ℚ) (n : ℤ) : Prop := |x * 100 - (n : ℚ)| < 1 / 2

/- ----------------------------------------------------------------------
Concrete fixtures used by witnesses, scenarios and counterexamples.
---------------------------------------------------------------------- -/

/-- The default cost configuration of the Cost Estimator page (and the
scenario configuration of the spec). -/
def cfg2 : Config :=
  { dil_rate := 100, haul_rate := 20, screen_price := 500, num_screens := 1,
    equip_cost := 100000, num_shakers := 3, shaker_life := 7,
    eng_cost := 1000, other_cost := 500 }

/-- The same configuration with a zero shaker life. -/
def cfgLife0 : Config := { cfg2 with shaker_life := 0 }

/-- The spec's cost scenario subset: one record with Total_Dil 50,
Haul_OFF 40, IntLength 1000. -/
def sub2 : Dataset :=
  { cols := ["Total_Dil", "Haul_OFF", "IntLength"],
    rows := [[Cell.num 50, Cell.num 40, Cell.num 1000]] }

/-- A subset with the cost columns but zero records. -/
def dfEmpty6 : Dataset := { cols := ["Total_Dil", "Haul_OFF", "IntLength"], rows := [] }

/-- What `calc_cost` returns on `dfEmpty6` under `cfg2`. -/
def bEmpty6 : Breakdown :=
  { perFt := 0, total := 314000 / 7, dilution := 0, haul := 0, screen := 500,
    equipment := 300000 / 7, engineering := 1000, other := 500,
    avgLGS := some 0, dsrePct := some 0, depth := some 0 }

/-- The spec's free-text scenario: a `flowline_Shakers` column holding
"Derrick", "Non-Derrick", "Derrick". -/
def dfShak : Dataset :=
  { cols := ["flowline_Shakers"],
    rows := [[Cell.str "Derrick"], [Cell.str "Non-Derrick"], [Cell.str "Derrick"]] }

/-- A dataset with all the shared-filter columns whose single record has a
missing TD_Date. -/
def dfC4 : Dataset :=
  { cols := ["Operator", "Contractor", "flowline_Shakers", "Hole_Size", "TD_Date"],
    rows := [[Cell.str "OpA", Cell.str "CoA", Cell.str "Derrick", Cell.num 8, Cell.missing]] }

/-- Like `dfC4` but with an in-window completion date. -/
def dfC4w : Dataset :=
  { cols := ["Operator", "Contractor", "flowline_Shakers", "Hole_Size", "TD_Date"],
    rows := [[Cell.str "OpA", Cell.str "CoA", Cell.str "Derrick", Cell.num 8, Cell.date 2021]] }

/-- A dataset lacking the `Operator` column (and every metric column). -/
def dfNoOp : Dataset :=
  { cols := ["Well_Name", "TD_Date"], rows := [[Cell.str "W1", Cell.date 2021]] }

/-- A full-schema single-record dataset for the advanced metrics. -/
def dfFull : Dataset :=
  { cols := ["Total_SCE", "Haul_OFF", "IntLength", "ROP", "Hole_Size",
             "Base_Oil", "Water", "Chemicals", "Solids_Generated", "Discard Ratio"],
    rows := [[Cell.num 10, Cell.num 40, Cell.num 1000, Cell.num 50, Cell.num 10,
              Cell.num 5, Cell.num 3, Cell.num 2, Cell.num 20, Cell.num (1 / 2)]] }

/-- The metrics app.py computes on `dfFull` with the default manual inputs. -/
def mFull : AdvMetrics :=
  { ste := PF.val 50, cvr := PF.val (1 / 25), sli := PF.val (400 / 3), frc := PF.val 100,
    dii := PF.val 5, fli := PF.val (1 / 100), cdr := PF.val (1 / 500),
    mre := PF.val 0, dsl := PF.val 50 }

/-- A full-schema dataset with zero records (the unguarded columns of
app.py's `calculate_advanced_metrics`). -/
def advDf0 : Dataset :=
  { cols := ["Total_SCE", "Haul_OFF", "IntLength", "ROP", "Hole_Size",
             "Base_Oil", "Water", "Chemicals"], rows := [] }

/-- The metrics app.py computes on `advDf0` with the default manual inputs:
sums are 0, so the `safe_div` ratios are 0, while the mean-based DII is NaN. -/
def m0 : AdvMetrics :=
  { ste := PF.val 0, cvr := PF.val 0, sli := PF.val (400 / 3), frc := PF.val 0,
    dii := PF.nan, fli := PF.val 0, cdr := PF.val 0,
    mre := PF.val 100, dsl := PF.val 100 }

/-- A raw loaded dataset whose TD_Date column is still text. -/
def rawC9 : Dataset := { cols := ["TD_Date"], rows := [[Cell.str "2021-06-01"]] }

/-- `rawC9` after the loader's TD_Date coercion. -/
def dfC9 : Dataset := { cols := ["TD_Date"], rows := [[Cell.date 2021]] }

/-- Is an `Except` result a success? -/
def exOk {α : Type} : Except String α → Bool
  | Except.ok _ => true
  | Except.error _ => false

/- ----------------------------------------------------------------------
Shared helper lemmas.
---------------------------------------------------------------------- -/

theorem calc_cost_eq (sub : Dataset) (config : Config)
    (hs : costSchemaOk sub = true) (hl : config.shaker_life ≠ 0) :
    calc_cost sub config = Except.ok
      { perFt := if sub.colSum "IntLength" = 0 then 0 else
          (config.dil_rate * sub.colSum "Total_Dil" + config.haul_rate * sub.colSum "Haul_OFF" +
            config.screen_price * config.num_screens +
            config.equip_cost * config.num_shakers / config.shaker_life +
            config.eng_cost + config.other_cost) / sub.colSum "IntLength"
        total := config.dil_rate * sub.colSum "Total_Dil" + config.haul_rate * sub.colSum "Haul_OFF" +
          config.screen_price * config.num_screens +
          config.equip_cost * config.num_shakers / config.shaker_life +
          config.eng_cost + config.other_cost
        dilution := config.dil_rate * sub.colSum "Total_Dil"
        haul := config.haul_rate * sub.colSum "Haul_OFF"
        screen := config.screen_price * config.num_screens
        equipment := config.equip_cost * config.num_shakers / config.shaker_life
        engineering := config.eng_cost
        other := config.other_cost
        avgLGS := if sub.hasCol "LGS" then (sub.colMean "LGS").map (fun m => m * 100) else some 0
        dsrePct := if sub.hasCol "DSRE" then (sub.colMean "DSRE").map (fun m => m * 100) else some 0
        depth := if sub.hasCol "MD Depth" then sub.colMax "MD Depth" else some 0 } := by
  simp [calc_cost, hs, hl]

theorem colSum_empty (df : Dataset) (h : df.rows = []) (c : String) : df.colSum c = 0 := by
  simp [Dataset.colSum, Dataset.colVals, h]

theorem colMean_empty (df : Dataset) (h : df.rows = []) (c : String) : df.colMean c = none := by
  simp [Dataset.colMean, Dataset.colVals, h]

/- ----------------------------------------------------------------------
C1 — safe_div and the guarded ratio computations.
---------------------------------------------------------------------- -/

/-- Claim C1: `safe_div(n, 0) = 0` for every n (including n = 0, and also
under float semantics with a NaN numerator); and each listed engine ratio —
CVR, FLI, CDR in app.py's `calculate_advanced_metrics`, the per-foot /
per-hour normalization, and `calc_cost`'s cost-per-foot — yields zero when
its denominator sum is zero (which is what an absent/all-missing
denominator column sums to), with no arithmetic error: the functions are
total on these inputs. -/
theorem c1_safe_div_guards :
    (∀ n : ℚ, safe_div n 0 = 0) ∧
    (∀ x : PF, PF.safeDiv x (PF.val 0) = PF.val 0) ∧
    (∀ (df : Dataset) (tfr ns sa : ℚ) (m : AdvMetrics),
      calculate_advanced_metrics df tfr ns sa = Except.ok m →
      df.colSum "IntLength" = 0 →
      m.cvr = PF.val 0 ∧ m.fli = PF.val 0 ∧ m.cdr = PF.val 0) ∧
    (∀ m : AdvMetrics, normMetrics m (PF.val 0) = zeroAdv) ∧
    (∀ (sub : Dataset) (config : Config) (b : Breakdown),
      calc_cost sub config = Except.ok b →
      sub.colSum "IntLength" = 0 → b.perFt = 0) := by
  refine ⟨?_, ?_, ?_, ?_, ?_⟩
  · intro n; simp [safe_div]
  · intro x; simp [PF.safeDiv]
  · intro df tfr ns sa m h hz
    unfold calculate_advanced_metrics at h
    split at h
    · injection h with h'
      subst h'
      refine ⟨?_, ?_, ?_⟩ <;> simp [hz, PF.safeDiv]
    · cases h
  · intro m
    simp [normMetrics, zeroAdv, PF.safeDiv]
  · intro sub config b h hz
    unfold calc_cost at h
    split at h
    · split at h
      · cases h
      · injection h with h'
        subst h'
        simp [hz]
    · cases h

/-- Witness for C1 at the concrete empty full-schema dataset `advDf0`
(metrics `m0`) and the empty cost subset `dfEmpty6` (breakdown `bEmpty6`). -/
theorem c1_safe_div_guards_witness :
    (m0.cvr = PF.val 0 ∧ m0.fli = PF.val 0 ∧ m0.cdr = PF.val 0) ∧ bEmpty6.perFt = 0 := by
  constructor
  · apply c1_safe_div_guards.2.2.1 advDf0 800 3 2 m0
    · simp [calculate_advanced_metrics, advSchemaOk, Dataset.hasCol, Dataset.colSum,
        Dataset.colVals, Dataset.colMean, colMeanPF, PF.mul, PF.truthy, PF.sub,
        PF.safeDiv, advDf0, m0]
      norm_num [PF.safeDiv, PF.mul, PF.sub]
    · rfl
  · apply c1_safe_div_guards.2.2.2.2 dfEmpty6 cfg2 bEmpty6
    · simp [calc_cost, costSchemaOk, Dataset.hasCol, Dataset.colSum, Dataset.colVals,
        Dataset.colMean, Dataset.colMax, dfEmpty6, cfg2, bEmpty6]
      norm_num
    · rfl

/- ----------------------------------------------------------------------
C2 — the cost roll-up formula and the spec's scenario.
---------------------------------------------------------------------- -/

/-- Claim C2: for every configuration (with a nonzero shaker life, which
the division by `shaker_life` presupposes) and every subset carrying the
three summed columns, `calc_cost` returns
`total = dil_rate*sum(Total_Dil) + haul_rate*sum(Haul_OFF) +
screen_price*num_screens + equip_cost*num_shakers/shaker_life + eng_cost +
other_cost` and `cost_per_ft = safe_div(total, sum(IntLength))`; on the
spec's scenario configuration `cfg2` and subset `sub2` the total is
354600/7 ≈ 50657.14 and the cost per foot rounds to 50.66. -/
theorem c2_cost_formula :
    (∀ (config : Config) (sub : Dataset), costSchemaOk sub = true →
      config.shaker_life ≠ 0 →
      ∃ b, calc_cost sub config = Except.ok b ∧
        b.total = config.dil_rate * sub.colSum "Total_Dil" +
          config.haul_rate * sub.colSum "Haul_OFF" +
          config.screen_price * config.num_screens +
          config.equip_cost * config.num_shakers / config.shaker_life +
          config.eng_cost + config.other_cost ∧
        b.perFt = safe_div b.total (sub.colSum "IntLength")) ∧
    (∃ b, calc_cost sub2 cfg2 = Except.ok b ∧ b.total = 354600 / 7 ∧
      roundsTo2 b.total 5065714 ∧ roundsTo2 b.perFt 5066) := by
  constructor
  · intro config sub hs hl
    refine ⟨_, calc_cost_eq sub config hs hl, rfl, ?_⟩
    simp [safe_div]
  · refine ⟨_, calc_cost_eq sub2 cfg2 (by decide) (by norm_num [cfg2]), ?_, ?_, ?_⟩ <;>
      · simp only [roundsTo2]
        simp [Dataset.colSum, Dataset.colVals, Row.cell, colIdx, cellNum, sub2, cfg2]
        norm_num
        try (rw [abs_lt]; constructor <;> norm_num)

/-- Witness for C2's universally quantified formula at `cfg2` and `sub2`. -/
theorem c2_cost_formula_witness :
    ∃ b, calc_cost sub2 cfg2 = Except.ok b ∧
      b.total = cfg2.dil_rate * sub2.colSum "Total_Dil" +
        cfg2.haul_rate * sub2.colSum "Haul_OFF" +
        cfg2.screen_price * cfg2.num_screens +
        cfg2.equip_cost * cfg2.num_shakers / cfg2.shaker_life +
        cfg2.eng_cost + cfg2.other_cost ∧
      b.perFt = safe_div b.total (sub2.colSum "IntLength") :=
  c2_cost_formula.1 cfg2 sub2 (by decide) (by norm_num [cfg2])

/- ----------------------------------------------------------------------
C10 — totality of calc_cost and the reachability of its division error.
---------------------------------------------------------------------- -/

/-- Claim C10: on a subset carrying the three unguarded columns,
`calc_cost` succeeds exactly when `shaker_life ≠ 0` — the equipment
amortization is the only unguarded division (cost-per-foot is guarded) —
and the division-error branch is reached exactly when `shaker_life = 0`. -/
theorem c10_calc_cost_totality :
    ∀ (sub : Dataset) (config : Config), costSchemaOk sub = true →
      ((exOk (calc_cost sub config) = true) ↔ config.shaker_life ≠ 0) ∧
      (config.shaker_life = 0 → calc_cost sub config = Except.error "ZeroDivisionError") := by
  intro sub config hs
  by_cases hl : config.shaker_life = 0
  · constructor
    · simp [calc_cost, hs, hl, exOk]
    · intro _; simp [calc_cost, hs, hl]
  · constructor
    · simp [calc_cost, hs, hl, exOk]
    · intro h; exact absurd h hl

/-- Witness for C10: the default configuration succeeds on `sub2`, and the
zero-shaker-life configuration raises `ZeroDivisionError` there. -/
theorem c10_calc_cost_totality_witness :
    exOk (calc_cost sub2 cfg2) = true ∧
    calc_cost sub2 cfgLife0 = Except.error "ZeroDivisionError" :=
  ⟨(c10_calc_cost_totality sub2 cfg2 (by decide)).1.mpr (by norm_num [cfg2]),
   (c10_calc_cost_totality sub2 cfgLife0 (by decide)).2 (by norm_num [cfgLife0, cfg2])⟩

/- ----------------------------------------------------------------------
C8 — the percent-complement relationships.
---------------------------------------------------------------------- -/

/-- Claim C8: whenever app.py's `calculate_advanced_metrics` returns a
metric record, MRE% is exactly 100 − FRC% and DSL is exactly 100 − STE
(under the code's float subtraction, so a NaN FRC%/STE complements to
NaN): the complement relationship is preserved by construction. -/
theorem c8_percent_complement :
    ∀ (df : Dataset) (tfr ns sa : ℚ) (m : AdvMetrics),
      calculate_advanced_metrics df tfr ns sa = Except.ok m →
      m.mre = PF.sub (PF.val 100) m.frc ∧ m.dsl = PF.sub (PF.val 100) m.ste := by
  intro df tfr ns sa m h
  unfold calculate_advanced_metrics at h
  split at h
  · injection h with h'
    subst h'
    exact ⟨rfl, rfl⟩
  · cases h

/-- Witness for C8 at the concrete one-record dataset `dfFull`, whose
metrics are `mFull`. -/
theorem c8_percent_complement_witness :
    mFull.mre = PF.sub (PF.val 100) mFull.frc ∧
    mFull.dsl = PF.sub (PF.val 100) mFull.ste := by
  apply c8_percent_complement dfFull 800 3 2 mFull
  simp [calculate_advanced_metrics, advSchemaOk, Dataset.hasCol, Dataset.colSum,
    Dataset.colVals, Dataset.colMean, colMeanPF, Row.cell, colIdx, cellNum,
    PF.mul, PF.sub, PF.truthy, PF.safeDiv, dfFull, mFull]
  norm_num [PF.safeDiv, PF.mul]

/- ----------------------------------------------------------------------
C6 — aggregates over an empty filter result.
---------------------------------------------------------------------- -/

/-- Counterexample to C6 as stated: on a legitimate empty filter result
(`dfEmpty6`) with the default configuration, `calc_cost` succeeds but its
"Total Cost" aggregate is 314000/7 ≈ 44857 — the fixed screen, equipment,
engineering and other terms remain — which is neither a zero nor an empty
result. -/
theorem c6_counterexample :
    calc_cost dfEmpty6 cfg2 = Except.ok bEmpty6 ∧ bEmpty6.total ≠ 0 := by
  constructor
  · simp [calc_cost, costSchemaOk, Dataset.hasCol, Dataset.colSum, Dataset.colVals,
      Dataset.colMean, Dataset.colMax, dfEmpty6, cfg2, bEmpty6]
    norm_num
  · norm_num [bEmpty6]

/-- Claim C6 as amended: over an empty dataset no aggregate fails; column
sums are zero, so the data-driven cost terms (dilution, haul) and the
guarded cost-per-foot are zero — but the cost total retains the fixed
configuration terms, and mean-based aggregates are missing (NaN), not
zero: every advanced_analysis.py metric is `none` (NaN) when its column
is present and the guarded 0 when it is absent. -/
theorem c6_empty_aggregates :
    ∀ (df : Dataset) (config : Config), df.rows = [] → costSchemaOk df = true →
      config.shaker_life ≠ 0 →
      (∀ c, df.colSum c = 0) ∧ (∀ c, df.colMean c = none) ∧
      (∃ b, calc_cost df config = Except.ok b ∧ b.dilution = 0 ∧ b.haul = 0 ∧
        b.perFt = 0 ∧
        b.total = config.screen_price * config.num_screens +
          config.equip_cost * config.num_shakers / config.shaker_life +
          config.eng_cost + config.other_cost) ∧
      calculate_advanced_metrics_aa df =
        { ste := emptyMetricVal df "STE", cvr := emptyMetricVal df "CVR",
          sli := emptyMetricVal df "SLI", frc := emptyMetricVal df "FRC%",
          dii := emptyMetricVal df "DII", fli := emptyMetricVal df "FLI",
          cdr := emptyMetricVal df "CDR", mre := emptyMetricVal df "MRE%",
          dsl := emptyMetricVal df "DSL" } := by
  intro df config hrows hs hl
  refine ⟨colSum_empty df hrows, colMean_empty df hrows, ?_, ?_⟩
  · refine ⟨_, calc_cost_eq df config hs hl, ?_, ?_, ?_, ?_⟩ <;>
      simp [colSum_empty df hrows]
  · simp [calculate_advanced_metrics_aa, emptyMetricVal, colMean_empty df hrows]

/-- Witness for C6 (amended) at the empty subset `dfEmpty6` under `cfg2`. -/
theorem c6_empty_aggregates_witness :
    (∀ c, dfEmpty6.colSum c = 0) ∧ (∀ c, dfEmpty6.colMean c = none) ∧
    (∃ b, calc_cost dfEmpty6 cfg2 = Except.ok b ∧ b.dilution = 0 ∧ b.haul = 0 ∧
      b.perFt = 0 ∧
      b.total = cfg2.screen_price * cfg2.num_screens +
        cfg2.equip_cost * cfg2.num_shakers / cfg2.shaker_life +
        cfg2.eng_cost + cfg2.other_cost) ∧
    calculate_advanced_metrics_aa dfEmpty6 =
      { ste := emptyMetricVal dfEmpty6 "STE", cvr := emptyMetricVal dfEmpty6 "CVR",
        sli := emptyMetricVal dfEmpty6 "SLI", frc := emptyMetricVal dfEmpty6 "FRC%",
        dii := emptyMetricVal dfEmpty6 "DII", fli := emptyMetricVal dfEmpty6 "FLI",
        cdr := emptyMetricVal dfEmpty6 "CDR", mre := emptyMetricVal dfEmpty6 "MRE%",
        dsl := emptyMetricVal dfEmpty6 "DSL" } :=
  c6_empty_aggregates dfEmpty6 cfg2 rfl (by decide) (by norm_num [cfg2])

/- ----------------------------------------------------------------------
C3 — behaviour on a dataset lacking a referenced column.
---------------------------------------------------------------------- -/

/-- Claim C3, evaluated at a failing input: on `dfNoOp`, a dataset without
an `Operator` column, the metric side honours the contract — every
advanced_analysis.py metric whose column is absent evaluates to zero —
but `apply_shared_filters` raises `KeyError` while building the Operator
dropdown options instead of skipping the criterion, contradicting the
spec's mandated defensive behaviour (a code bug: the spec names the
unguarded access a latent defect). -/
theorem c3_missing_column_eval :
    apply_shared_filters dfNoOp allAllParams = Except.error "KeyError" ∧
    calculate_advanced_metrics_aa dfNoOp =
      { ste := some 0, cvr := some 0, sli := some 0, frc := some 0, dii := some 0,
        fli := some 0, cdr := some 0, mre := some 0, dsl := some 0 } := by
  constructor
  · decide
  · decide

/- ----------------------------------------------------------------------
C7 — the free-text search.
---------------------------------------------------------------------- -/

theorem matchHere_lits (need cs : List Char) :
    matchHere (need.map RTok.lit) cs = startMatch need cs := by
  induction need generalizing cs with
  | nil => cases cs <;> rfl
  | cons a as ih =>
    cases cs with
    | nil => rfl
    | cons b bs => simp [matchHere, startMatch, tokMatch, ih]

theorem searchFrom_lits (need cs : List Char) :
    searchFrom (need.map RTok.lit) cs = subAt need cs := by
  induction cs with
  | nil => simp [searchFrom, subAt, matchHere_lits]
  | cons c cs ih => simp [searchFrom, subAt, matchHere_lits, ih]

theorem reSearch_eq_substrB (pat text : String)
    (h : ∀ c ∈ pat.toList, c ∉ regexMeta) :
    reSearch pat text = substrB pat text := by
  unfold reSearch substrB
  have hmap : pat.toList.map tokOf = pat.toList.map RTok.lit := by
    apply List.map_congr_left
    intro c hc
    have hdot : c ≠ '.' := by
      intro he
      exact h c hc (he ▸ (by decide : ('.' : Char) ∈ regexMeta))
    simp [tokOf, hdot]
  rw [hmap, searchFrom_lits]

theorem lowerStr_ne_empty {s : String} (h : s ≠ "") : lowerStr s ≠ "" := by
  intro he
  apply h
  have hd : (lowerStr s).data = ([] : List Char) := by rw [he]
  cases s with
  | mk data =>
    cases data with
    | nil => rfl
    | cons a as => simp [lowerStr] at hd

/-- Corrected C7: the claim's universal "keeps exactly the substring
matches" fails for regex-special search strings (see the counterexample);
it holds for every search string free of regex metacharacters.  Stated:
(1) the empty search string is a no-op; (2) for a nonempty search string
whose lowercased form contains no regex metacharacter, the filter keeps
exactly the records in which some attribute's lowercased text form
contains the lowercased search string as a substring; (3)–(4) the spec's
scenario: "derrick" keeps all 3 records of `dfShak`, "xyz" keeps 0. -/
theorem c7_search_semantics :
    (∀ df : Dataset, searchApplied df "" = df) ∧
    (∀ (df : Dataset) (s : String), s ≠ "" →
      (∀ c ∈ (lowerStr s).toList, c ∉ regexMeta) →
      (searchApplied df s).rows =
        df.rows.filter (fun r => r.any (fun c => substrB (lowerStr s) (lowerStr (cellStr c))))) ∧
    searchApplied dfShak "derrick" = dfShak ∧
    (searchApplied dfShak "xyz").rows = [] := by
  refine ⟨?_, ?_, by decide, by decide⟩
  · intro df
    simp [searchApplied, lowerStr]
  · intro df s hne h
    unfold searchApplied
    simp only [if_neg (lowerStr_ne_empty hne)]
    unfold searchFilter searchKeep
    have hfun : (fun c : Cell => reSearch (lowerStr s) (lowerStr (cellStr c))) =
        (fun c : Cell => substrB (lowerStr s) (lowerStr (cellStr c))) := by
      funext c
      exact reSearch_eq_substrB _ _ h
    rw [hfun]

/-- Witness for C7's quantified part at `dfShak` with the literal search
string "derrick". -/
theorem c7_search_semantics_witness :
    (searchApplied dfShak "derrick").rows =
      dfShak.rows.filter
        (fun r => r.any (fun c => substrB (lowerStr "derrick") (lowerStr (cellStr c)))) :=
  c7_search_semantics.2.1 dfShak "derrick" (by decide) (by decide)

/-- Counterexample to C7 as stated: searching "." keeps every record of
`dfShak` although no cell's lowercased text contains "." as a substring —
pandas `str.contains` interprets the search string as a regular
expression, where '.' matches any character — so the filter does not keep
"exactly the records where … contains s as a substring" for every s. -/
theorem c7_counterexample :
    (searchApplied dfShak ".").rows = dfShak.rows ∧
    dfShak.rows.all (fun r => r.all (fun c => !substrB "." (lowerStr (cellStr c)))) = true := by
  constructor
  · decide
  · decide

/- ----------------------------------------------------------------------
C4 — the all-"All" filter pass.
---------------------------------------------------------------------- -/

theorem set_getD_self (l : List Cell) (n : Nat) (d : Cell) :
    l.set n (l.getD n d) = l := by
  induction l generalizing n with
  | nil => rfl
  | cons a as ih =>
    cases n with
    | zero => simp only [List.set_cons_zero, List.getD_cons_zero]
    | succ m => simp only [List.set_cons_succ, List.getD_cons_succ, ih]

theorem updateRow_id (cols : List String) (r : Row) (c : String) (f : Cell → Cell)
    (h : f (Row.cell cols r c) = Row.cell cols r c) : updateRow cols r c f = r := by
  rcases hidx : colIdx cols c with _ | i
  · unfold updateRow
    rw [hidx]
  · unfold updateRow
    unfold Row.cell at h
    simp only [hidx] at h ⊢
    rw [h]
    exact set_getD_self r i Cell.missing

theorem map_id_of_mem {α : Type} (l : List α) (f : α → α) (h : ∀ a ∈ l, f a = a) :
    l.map f = l := by
  induction l with
  | nil => rfl
  | cons a as ih =>
    simp only [List.map_cons, h a (List.mem_cons_self a as),
      ih (fun x hx => h x (List.mem_cons_of_mem a hx))]

theorem coerceTDDate_id (df : Dataset)
    (h : ∀ r ∈ df.rows, coerceCell (Row.cell df.cols r "TD_Date") = Row.cell df.cols r "TD_Date") :
    coerceTDDate df = df := by
  unfold coerceTDDate updateCol
  cases df with
  | mk cols rows =>
    simp only [Dataset.mk.injEq, true_and]
    exact map_id_of_mem rows _ (fun r hr => updateRow_id cols r _ _ (h r hr))

theorem filter_all_true {α : Type} (l : List α) (p : α → Bool) (h : ∀ a ∈ l, p a = true) :
    l.filter p = l := List.filter_eq_self.mpr h

theorem eqStep_all (df : Dataset) (c : String) (h : df.hasCol c = true) :
    eqStep df c "All" = Except.ok df := by
  simp [eqStep, h]

theorem rangeStep_all (df : Dataset) (c : String) (bins : List (String × ℚ × Option ℚ)) :
    rangeStep df c bins "All" = Except.ok df := by
  simp [rangeStep]

/-- Counterexample to C4 as stated: on `dfC4` — whose single record has a
missing TD_Date — the all-"All" default pass (empty search, full 2020–2026
window) returns the empty dataset, not `dfC4`: the year-range filter is
applied unconditionally and drops records with missing or out-of-window
completion dates, so the default filter state is not the identity on every
dataset. -/
theorem c4_counterexample :
    apply_shared_filters dfC4 allAllParams = Except.ok { cols := dfC4.cols, rows := [] } ∧
    dfC4.rows ≠ [] := by
  constructor
  · decide
  · decide

/-- Corrected C4: the all-"All" default pass (empty search, full default
year window) is the identity on every dataset that carries the filter
columns and whose records all have an already-parsed completion date with
year inside the default 2020–2026 window.  (The code always applies the
year filter, so records with missing or out-of-window dates are dropped —
see the counterexample; there is no separate empty-criterion-list code
path.) -/
theorem c4_all_identity :
    ∀ df : Dataset,
      df.hasCol "Operator" = true → df.hasCol "Contractor" = true →
      df.hasCol "flowline_Shakers" = true → df.hasCol "Hole_Size" = true →
      df.hasCol "TD_Date" = true →
      (∀ r ∈ df.rows, ∃ y : ℤ, Row.cell df.cols r "TD_Date" = Cell.date y ∧
        2020 ≤ y ∧ y ≤ 2026) →
      apply_shared_filters df allAllParams = Except.ok df := by
  intro df h1 h2 h3 h4 h5 hdate
  have hsearch : searchApplied df "" = df := by simp [searchApplied, lowerStr]
  have hcoerce : coerceTDDate df = df := by
    apply coerceTDDate_id
    intro r hr
    obtain ⟨y, hy, _, _⟩ := hdate r hr
    rw [hy]
    rfl
  have hyear : yearFilter df 2020 2026 = df := by
    unfold yearFilter
    cases hdf : df with
    | mk cols rows =>
      simp only [Dataset.mk.injEq, true_and]
      apply filter_all_true
      intro r hr
      have hr' : r ∈ df.rows := by rw [hdf]; exact hr
      obtain ⟨y, hy, hy1, hy2⟩ := hdate r hr'
      unfold yearKeep
      rw [hdf] at hy
      simp only [hy]
      simp [hy1, hy2]
  unfold apply_shared_filters
  simp only [allAllParams, hsearch]
  simp only [eqStep_all df "Operator" h1]
  simp only [eqStep_all df "Contractor" h2]
  simp only [eqStep_all df "flowline_Shakers" h3]
  simp only [eqStep_all df "Hole_Size" h4]
  simp only [h5, if_true]
  rw [hcoerce, hyear]
  simp only [rangeStep_all df "MD Depth" depth_bins]
  simp only [rangeStep_all df "AMW" mw_bins]

/-- Witness for C4 (amended) at `dfC4w`, a concrete dataset whose record is
dated 2021. -/
theorem c4_all_identity_witness :
    apply_shared_filters dfC4w allAllParams = Except.ok dfC4w := by
  apply c4_all_identity dfC4w (by decide) (by decide) (by decide) (by decide) (by decide)
  intro r hr
  simp only [dfC4w, List.mem_singleton] at hr
  subst hr
  exact ⟨2021, by decide, by decide, by decide⟩

/- ----------------------------------------------------------------------
C5 — the range buckets.
---------------------------------------------------------------------- -/

theorem depth_count (v : ℚ) :
    depth_bins.countP (inBin v) = if 0 ≤ v then 1 else 0 := by
  rcases lt_or_le v 0 with h | h0
  · have n1 : ¬ (0 : ℚ) ≤ v := not_le.mpr h
    have n2 : ¬ (5000 : ℚ) ≤ v := not_le.mpr (h.trans (by norm_num))
    have n3 : ¬ (10000 : ℚ) ≤ v := not_le.mpr (h.trans (by norm_num))
    have n4 : ¬ (15000 : ℚ) ≤ v := not_le.mpr (h.trans (by norm_num))
    have n5 : ¬ (20000 : ℚ) ≤ v := not_le.mpr (h.trans (by norm_num))
    have n6 : ¬ (25000 : ℚ) ≤ v := not_le.mpr (h.trans (by norm_num))
    simp [depth_bins, List.countP_cons, List.countP_nil, inBin, n1, n2, n3, n4, n5, n6]
  · rcases lt_or_le v 5000 with h1 | h1
    · have n2 : ¬ (5000 : ℚ) ≤ v := not_le.mpr h1
      have n3 : ¬ (10000 : ℚ) ≤ v := not_le.mpr (h1.trans (by norm_num))
      have n4 : ¬ (15000 : ℚ) ≤ v := not_le.mpr (h1.trans (by norm_num))
      have n5 : ¬ (20000 : ℚ) ≤ v := not_le.mpr (h1.trans (by norm_num))
      have n6 : ¬ (25000 : ℚ) ≤ v := not_le.mpr (h1.trans (by norm_num))
      simp [depth_bins, List.countP_cons, List.countP_nil, inBin, h0, h1, n2, n3, n4, n5, n6]
    · rcases lt_or_le v 10000 with h2 | h2
      · have m1 : ¬ v < 5000 := not_lt.mpr h1
        have n3 : ¬ (10000 : ℚ) ≤ v := not_le.mpr h2
        have n4 : ¬ (15000 : ℚ) ≤ v := not_le.mpr (h2.trans (by norm_num))
        have n5 : ¬ (20000 : ℚ) ≤ v := not_le.mpr (h2.trans (by norm_num))
        have n6 : ¬ (25000 : ℚ) ≤ v := not_le.mpr (h2.trans (by norm_num))
        simp [depth_bins, List.countP_cons, List.countP_nil, inBin, h0, h1, h2, m1, n3, n4, n5, n6]
      · rcases lt_or_le v 15000 with h3 | h3
        · have m1 : ¬ v < 5000 := not_lt.mpr ((by norm_num : (5000:ℚ) ≤ 10000).trans h2)
          have m2 : ¬ v < 10000 := not_lt.mpr h2
          have n4 : ¬ (15000 : ℚ) ≤ v := not_le.mpr h3
          have n5 : ¬ (20000 : ℚ) ≤ v := not_le.mpr (h3.trans (by norm_num))
          have n6 : ¬ (25000 : ℚ) ≤ v := not_le.mpr (h3.trans (by norm_num))
          simp [depth_bins, List.countP_cons, List.countP_nil, inBin, h0, h2, h3, m1, m2, n4, n5, n6]
        · rcases lt_or_le v 20000 with h4 | h4
          · have m1 : ¬ v < 5000 := not_lt.mpr ((by norm_num : (5000:ℚ) ≤ 15000).trans h3)
            have m2 : ¬ v < 10000 := not_lt.mpr ((by norm_num : (10000:ℚ) ≤ 15000).trans h3)
            have m3 : ¬ v < 15000 := not_lt.mpr h3
            have n5 : ¬ (20000 : ℚ) ≤ v := not_le.mpr h4
            have n6 : ¬ (25000 : ℚ) ≤ v := not_le.mpr (h4.trans (by norm_num))
            simp [depth_bins, List.countP_cons, List.countP_nil, inBin, h0, h3, h4, m1, m2, m3, n5, n6]
          · rcases lt_or_le v 25000 with h5 | h5
            · have m1 : ¬ v < 5000 := not_lt.mpr ((by norm_num : (5000:ℚ) ≤ 20000).trans h4)
              have m2 : ¬ v < 10000 := not_lt.mpr ((by norm_num : (10000:ℚ) ≤ 20000).trans h4)
              have m3 : ¬ v < 15000 := not_lt.mpr ((by norm_num : (15000:ℚ) ≤ 20000).trans h4)
              have m4 : ¬ v < 20000 := not_lt.mpr h4
              have n6 : ¬ (25000 : ℚ) ≤ v := not_le.mpr h5
              simp [depth_bins, List.countP_cons, List.countP_nil, inBin, h0, h4, h5, m1, m2, m3, m4, n6]
            · have m1 : ¬ v < 5000 := not_lt.mpr ((by norm_num : (5000:ℚ) ≤ 25000).trans h5)
              have m2 : ¬ v < 10000 := not_lt.mpr ((by norm_num : (10000:ℚ) ≤ 25000).trans h5)
              have m3 : ¬ v < 15000 := not_lt.mpr ((by norm_num : (15000:ℚ) ≤ 25000).trans h5)
              have m4 : ¬ v < 20000 := not_lt.mpr ((by norm_num : (20000:ℚ) ≤ 25000).trans h5)
              have m5 : ¬ v < 25000 := not_lt.mpr h5
              simp [depth_bins, List.countP_cons, List.countP_nil, inBin, h0, h5, m1, m2, m3, m4, m5]

theorem mw_count (v : ℚ) :
    mw_bins.countP (inBin v) = if 0 ≤ v ∧ v < 30 then 1 else 0 := by
  rcases lt_or_le v 0 with h | h0
  · have n1 : ¬ (0 : ℚ) ≤ v := not_le.mpr h
    have n2 : ¬ (3 : ℚ) ≤ v := not_le.mpr (h.trans (by norm_num))
    have n3 : ¬ (6 : ℚ) ≤ v := not_le.mpr (h.trans (by norm_num))
    have n4 : ¬ (9 : ℚ) ≤ v := not_le.mpr (h.trans (by norm_num))
    have n5 : ¬ (11 : ℚ) ≤ v := not_le.mpr (h.trans (by norm_num))
    have n6 : ¬ (14 : ℚ) ≤ v := not_le.mpr (h.trans (by norm_num))
    simp [mw_bins, List.countP_cons, List.countP_nil, inBin, n1, n2, n3, n4, n5, n6]
  · rcases lt_or_le v 3 with h1 | h1
    · have n2 : ¬ (3 : ℚ) ≤ v := not_le.mpr h1
      have n3 : ¬ (6 : ℚ) ≤ v := not_le.mpr (h1.trans (by norm_num))
      have n4 : ¬ (9 : ℚ) ≤ v := not_le.mpr (h1.trans (by norm_num))
      have n5 : ¬ (11 : ℚ) ≤ v := not_le.mpr (h1.trans (by norm_num))
      have n6 : ¬ (14 : ℚ) ≤ v := not_le.mpr (h1.trans (by norm_num))
      have h30 : v < 30 := h1.trans (by norm_num)
      simp [mw_bins, List.countP_cons, List.countP_nil, inBin, h0, h1, h30, n2, n3, n4, n5, n6]
    · rcases lt_or_le v 6 with h2 | h2
      · have m1 : ¬ v < 3 := not_lt.mpr h1
        have n3 : ¬ (6 : ℚ) ≤ v := not_le.mpr h2
        have n4 : ¬ (9 : ℚ) ≤ v := not_le.mpr (h2.trans (by norm_num))
        have n5 : ¬ (11 : ℚ) ≤ v := not_le.mpr (h2.trans (by norm_num))
        have n6 : ¬ (14 : ℚ) ≤ v := not_le.mpr (h2.trans (by norm_num))
        have h30 : v < 30 := h2.trans (by norm_num)
        simp [mw_bins, List.countP_cons, List.countP_nil, inBin, h0, h1, h2, h30, m1, n3, n4, n5, n6]
      · rcases lt_or_le v 9 with h3 | h3
        · have m1 : ¬ v < 3 := not_lt.mpr ((by norm_num : (3:ℚ) ≤ 6).trans h2)
          have m2 : ¬ v < 6 := not_lt.mpr h2
          have n4 : ¬ (9 : ℚ) ≤ v := not_le.mpr h3
          have n5 : ¬ (11 : ℚ) ≤ v := not_le.mpr (h3.trans (by norm_num))
          have n6 : ¬ (14 : ℚ) ≤ v := not_le.mpr (h3.trans (by norm_num))
          have h30 : v < 30 := h3.trans (by norm_num)
          simp [mw_bins, List.countP_cons, List.countP_nil, inBin, h0, h2, h3, h30, m1, m2, n4, n5, n6]
        · rcases lt_or_le v 11 with h4 | h4
          · have m1 : ¬ v < 3 := not_lt.mpr ((by norm_num : (3:ℚ) ≤ 9).trans h3)
            have m2 : ¬ v < 6 := not_lt.mpr ((by norm_num : (6:ℚ) ≤ 9).trans h3)
            have m3 : ¬ v < 9 := not_lt.mpr h3
            have n5 : ¬ (11 : ℚ) ≤ v := not_le.mpr h4
            have n6 : ¬ (14 : ℚ) ≤ v := not_le.mpr (h4.trans (by norm_num))
            have h30 : v < 30 := h4.trans (by norm_num)
            simp [mw_bins, List.countP_cons, List.countP_nil, inBin, h0, h3, h4, h30, m1, m2, m3, n5, n6]
          · rcases lt_or_le v 14 with h5 | h5
            · have m1 : ¬ v < 3 := not_lt.mpr ((by norm_num : (3:ℚ) ≤ 11).trans h4)
              have m2 : ¬ v < 6 := not_lt.mpr ((by norm_num : (6:ℚ) ≤ 11).trans h4)
              have m3 : ¬ v < 9 := not_lt.mpr ((by norm_num : (9:ℚ) ≤ 11).trans h4)
              have m4 : ¬ v < 11 := not_lt.mpr h4
              have n6 : ¬ (14 : ℚ) ≤ v := not_le.mpr h5
              have h30 : v < 30 := h5.trans (by norm_num)
              simp [mw_bins, List.countP_cons, List.countP_nil, inBin, h0, h4, h5, h30, m1, m2, m3, m4, n6]
            · rcases lt_or_le v 30 with h6 | h6
              · have m1 : ¬ v < 3 := not_lt.mpr ((by norm_num : (3:ℚ) ≤ 14).trans h5)
                have m2 : ¬ v < 6 := not_lt.mpr ((by norm_num : (6:ℚ) ≤ 14).trans h5)
                have m3 : ¬ v < 9 := not_lt.mpr ((by norm_num : (9:ℚ) ≤ 14).trans h5)
                have m4 : ¬ v < 11 := not_lt.mpr ((by norm_num : (11:ℚ) ≤ 14).trans h5)
                have m5 : ¬ v < 14 := not_lt.mpr h5
                simp [mw_bins, List.countP_cons, List.countP_nil, inBin, h0, h5, h6, m1, m2, m3, m4, m5]
              · have m1 : ¬ v < 3 := not_lt.mpr ((by norm_num : (3:ℚ) ≤ 30).trans h6)
                have m2 : ¬ v < 6 := not_lt.mpr ((by norm_num : (6:ℚ) ≤ 30).trans h6)
                have m3 : ¬ v < 9 := not_lt.mpr ((by norm_num : (9:ℚ) ≤ 30).trans h6)
                have m4 : ¬ v < 11 := not_lt.mpr ((by norm_num : (11:ℚ) ≤ 30).trans h6)
                have m5 : ¬ v < 14 := not_lt.mpr ((by norm_num : (14:ℚ) ≤ 30).trans h6)
                have m6 : ¬ v < 30 := not_lt.mpr h6
                simp [mw_bins, List.countP_cons, List.countP_nil, inBin, h0, h6, m1, m2, m3, m4, m5, m6]

/-- Counterexample to C5 as stated: a record with mud weight 30 — a
non-missing value — falls into none of the mud-weight bins (the final bin
is "14–30", i.e. [14, 30), bounded above), so the mud-weight family is not
jointly exhaustive over the non-missing values. -/
theorem c5_counterexample : mw_bins.countP (inBin (30 : ℚ)) = 0 := by decide

/-- Corrected C5: both bin families are pairwise disjoint (no value lies
in two bins); the depth bins are jointly exhaustive over the nonnegative
values, with the final depth bin unbounded above; the mud-weight bins are
jointly exhaustive only over [0, 30) — a mud weight of 30 or more (or any
negative value) falls in no bin.  A selected bin keeps exactly the records
whose attribute value is non-missing and lies in [low, high). -/
theorem c5_range_buckets :
    (∀ v : ℚ, depth_bins.countP (inBin v) ≤ 1 ∧ mw_bins.countP (inBin v) ≤ 1) ∧
    (∀ v : ℚ, 0 ≤ v → depth_bins.countP (inBin v) = 1) ∧
    (∀ v : ℚ, 0 ≤ v → v < 30 → mw_bins.countP (inBin v) = 1) ∧
    (∀ (df : Dataset) (c : String) (lo : ℚ) (hi : Option ℚ) (r : Row),
      r ∈ (rangeFilter df c lo hi).rows ↔ r ∈ df.rows ∧ rangeKeep df.cols c lo hi r = true) ∧
    (∀ (cols : List String) (c nm : String) (lo : ℚ) (hi : Option ℚ) (r : Row),
      rangeKeep cols c lo hi r = true ↔
        ∃ v, cellNum (Row.cell cols r c) = some v ∧ inBin v (nm, lo, hi) = true) := by
  refine ⟨?_, ?_, ?_, ?_, ?_⟩
  · intro v
    rw [depth_count, mw_count]
    constructor <;> split_ifs <;> norm_num
  · intro v h
    rw [depth_count, if_pos h]
  · intro v h0 h30
    rw [mw_count, if_pos ⟨h0, h30⟩]
  · intro df c lo hi r
    simp [rangeFilter, List.mem_filter]
  · intro cols c nm lo hi r
    unfold rangeKeep inBin
    cases hcell : cellNum (Row.cell cols r c) with
    | none => simp
    | some v0 => simp

/-- Witness for C5's partition statements at depth 4200 ft and mud
weight 10. -/
theorem c5_range_buckets_witness :
    depth_bins.countP (inBin (4200 : ℚ)) = 1 ∧ mw_bins.countP (inBin (10 : ℚ)) = 1 :=
  ⟨c5_range_buckets.2.1 4200 (by norm_num),
   c5_range_buckets.2.2.1 10 (by norm_num) (by norm_num)⟩

/- ----------------------------------------------------------------------
C9 — the shared source dataset is never changed.
---------------------------------------------------------------------- -/

theorem coerceCell_idem (c : Cell) : coerceCell (coerceCell c) = coerceCell c := by
  cases c with
  | num q => rfl
  | missing => rfl
  | date y => rfl
  | str s =>
    cases hp : parseYear s
    · simp [coerceCell, hp]
    · simp [coerceCell, hp]

theorem set_coerce_idem (l : List Cell) (i : Nat) :
    (l.set i (coerceCell (l.getD i Cell.missing))).set i
      (coerceCell ((l.set i (coerceCell (l.getD i Cell.missing))).getD i Cell.missing)) =
    l.set i (coerceCell (l.getD i Cell.missing)) := by
  induction l generalizing i with
  | nil => rfl
  | cons a as ih =>
    cases i with
    | zero =>
      simp only [List.set_cons_zero, List.getD_cons_zero, coerceCell_idem]
    | succ m =>
      simp only [List.set_cons_succ, List.getD_cons_succ]
      exact congrArg (a :: ·) (ih m)

theorem updateRow_coerce_idem (cols : List String) (r : Row) (c : String) :
    updateRow cols (updateRow cols r c coerceCell) c coerceCell =
      updateRow cols r c coerceCell := by
  rcases hidx : colIdx cols c with _ | i
  · unfold updateRow
    simp only [hidx]
  · unfold updateRow
    simp only [hidx]
    exact set_coerce_idem r i

theorem coerceTDDate_idem (df : Dataset) :
    coerceTDDate (coerceTDDate df) = coerceTDDate df := by
  unfold coerceTDDate updateCol
  cases df with
  | mk cols rows =>
    simp only [Dataset.mk.injEq, true_and]
    rw [List.map_map]
    apply List.map_congr_left
    intro r _
    exact updateRow_coerce_idem cols r "TD_Date"

/-- Claim C9: the dashboard's only in-place write to the shared loaded
frame is the TD_Date re-coercion (advanced_analysis.py line 142); since
the loader already coerces TD_Date (app.py line 392 /
advanced_analysis.py line 233) and the coercion is idempotent cell by
cell, re-rendering leaves the shared source dataset with the same records
and attribute values.  Every other filter/metric operation of the
embedding is a pure function of a copy and returns a new `Dataset`. -/
theorem c9_source_unchanged :
    (∀ c : Cell, coerceCell (coerceCell c) = coerceCell c) ∧
    (∀ raw df : Dataset, tdCoerceStep raw = Except.ok df →
      tdCoerceStep df = Except.ok df) := by
  refine ⟨coerceCell_idem, ?_⟩
  intro raw df h
  unfold tdCoerceStep at h ⊢
  split at h
  case isTrue hc =>
    injection h with h'
    subst h'
    have hcols : (updateCol raw "TD_Date" coerceCell).hasCol "TD_Date" = true := hc
    rw [if_pos hcols]
    exact congrArg Except.ok (coerceTDDate_idem raw)
  case isFalse => cases h

/-- Witness for C9 at the concrete raw dataset `rawC9`, whose coerced form
is `dfC9`. -/
theorem c9_source_unchanged_witness : tdCoerceStep dfC9 = Except.ok dfC9 :=
  c9_source_unchanged.2 rawC9 dfC9 (by decide)
